import Mathlib

/-!
# powermate-linux: the control loop of `main.c`

A shallow embedding of the event loop of `src/main.c` (lines 201-297) together with
`exec_command`, `set_led` and `update_led`.

* The C globals (`muted`, `movie_mode`, `knob_depressed`, `devfd`,
  `knob_depressed_timestamp`) and the local `fds[0]` are the fields of `State`.
* The settings globals are the fields of `Settings`; a `char *` is an `Option String`
  (`none` is `NULL`).
* What the operating system answers during one pass of `while (1)` is an `Env`:
  the results of the `open` calls of the inner reconnect loop, the time reported by
  `gettimeofday`, the return value of `poll` with the `revents` it stored, and the result
  of `read`.
* The system calls a pass makes are returned as a list of `Effect`s, in program order.
  Text printed to stdout/stderr is not modelled.
* Machine integers are `Int`/`Nat`; the two narrowing conversions that occur
  (`unsigned int` to `__s32` in `set_led`, 64-bit arithmetic to `int timeout`) are explicit.
-/

namespace Powermate

/-! ## Data -/

/-- Record `struct timeval`. -/
structure Timeval where
  tv_sec : Int
  tv_usec : Int
deriving DecidableEq, Repr

/-- Record `struct input_event` of `linux/input.h`: `time`, `__u16 type`, `__u16 code`,
`__s32 value`. -/
structure InputEvent where
  time : Timeval
  type : Int
  code : Int
  value : Int
deriving DecidableEq, Repr

/-- Event type `EV_KEY` of `linux/input-event-codes.h`. -/
def EV_KEY : Int := 1

/-- Event type `EV_REL` of `linux/input-event-codes.h`. -/
def EV_REL : Int := 2

/-- Event type `EV_MSC` of `linux/input-event-codes.h`. -/
def EV_MSC : Int := 4

/-- Event code `MSC_PULSELED` of `linux/input-event-codes.h`. -/
def MSC_PULSELED : Int := 1

/-- Value of `sizeof(unsigned int)` on the Linux ABIs the program builds for. -/
def sizeof_unsigned_int : Nat := 4

/-- Conversion of an integer to a 32-bit two's complement `int` (what gcc does on
narrowing and on `unsigned int` to `int`). -/
def toInt32 (n : Int) : Int := (n + 2147483648) % 4294967296 - 2147483648

/-- The settings globals of `main.c`, lines 16-21. -/
structure Settings where
  dev : String
  knob_command : Option String
  long_press_command : Option String
  clock_wise_command : Option String
  counter_clock_wise_command : Option String
  long_press_ms : Int
deriving DecidableEq, Repr

/-- The state globals of `main.c`, lines 24-28, and the local `fds[0]` of `main`. -/
structure State where
  muted : Int
  movie_mode : Int
  knob_depressed : Int
  devfd : Int
  knob_depressed_timestamp : Timeval
  fds0_fd : Int
  fds0_revents : Int
deriving DecidableEq, Repr

/-- The system calls made by the loop, as they appear in the trace. -/
inductive Effect where
  | system (command : String)
  | write (fd : Int) (ev : InputEvent)
  | sleep (seconds : Nat)
  | poll (fd : Int) (timeout : Int)
  | exit (status : Int)
deriving DecidableEq, Repr

/-- What the operating system answers during one pass of the `while (1)` loop. -/
structure Env where
  /-- results of the successive `open(dev, O_RDWR)` calls of the reconnect loop -/
  opens : List Int
  /-- the time stored by `gettimeofday` -/
  now : Timeval
  /-- return value of `poll` -/
  poll_ret : Int
  /-- the `revents` stored by `poll` in `fds[0]` -/
  poll_revents : Int
  /-- the event stored by `read`, or `none` when `read` did not return `sizeof(ev)` -/
  read : Option InputEvent
deriving DecidableEq, Repr

/-- How a pass of the loop ends: the loop goes on in a new state, or the process has
called `exit`. -/
inductive Outcome where
  | running (s : State)
  | exited (status : Int)
deriving DecidableEq, Repr

/-! ## The functions of `main.c` -/

/-- Function `exec_command`, lines 30-39: nothing for `NULL` or the empty string, else one
`system(command)`. -/
def exec_command (command : Option String) : List Effect :=
  match command with
  | none => []
  | some c => if c = "" then [] else [Effect.system c]

/-- Function `set_led`, lines 41-51: one `write` to `devfd` of a zeroed `input_event` with
`type = EV_MSC`, `code = MSC_PULSELED`, `value = val`. -/
def set_led (s : State) (val : Nat) : List Effect :=
  [Effect.write s.devfd
    { time := { tv_sec := 0, tv_usec := 0 }, type := EV_MSC, code := MSC_PULSELED,
      value := toInt32 val }]

/-- Function `update_led`, lines 53-59. -/
def update_led (s : State) (val : Nat) : List Effect :=
  if s.muted ≠ 0 ∨ s.movie_mode ≠ 0 then set_led s 0 else set_led s val

/-- The state in which `main` enters `while (1)`: the globals as initialised, `devfd` the
result of the first `open` (line 173), and `fds[0].fd = devfd` (line 202). -/
def init_state (open_result : Int) : State :=
  { muted := 0, movie_mode := 0, knob_depressed := 0, devfd := open_result,
    knob_depressed_timestamp := { tv_sec := 0, tv_usec := 0 },
    fds0_fd := open_result, fds0_revents := 0 }

/-- The settings as `main.c` initialises them, lines 16-21, when no configuration file
changes them. -/
def default_settings : Settings :=
  { dev := "/dev/input/powermate", knob_command := none, long_press_command := none,
    clock_wise_command := none, counter_clock_wise_command := none, long_press_ms := 1000 }

/-- The LED record that `set_led` builds for a value already in `__s32` range. -/
def led_record (value : Int) : InputEvent :=
  { time := { tv_sec := 0, tv_usec := 0 }, type := EV_MSC, code := MSC_PULSELED,
    value := value }

/-- A button event (`EV_KEY`, code 256) with the given value and time stamp. -/
def button_event (value : Int) (time : Timeval) : InputEvent :=
  { time := time, type := EV_KEY, code := 256, value := value }

/-- The answers of the operating system in a pass where `poll` reports the descriptor
readable (`POLLIN`) and `read` returns the event `ev`. -/
def env_reading (now : Timeval) (ev : InputEvent) : Env :=
  { opens := [], now := now, poll_ret := 1, poll_revents := 1, read := some ev }

/-- The reconnect loop `while (devfd < 0)`, lines 214-226, run against the results of the
successive `open` calls. `none` when the results are used up with the loop still
running. -/
def reconnect : State → List Int → Option (State × List Effect)
  | s, [] => if s.devfd < 0 then none else some (s, [])
  | s, r :: rest =>
    if s.devfd < 0 then
      let s1 := { s with devfd := r }
      if r = -1 then
        (reconnect s1 rest).map (fun p => (p.1, Effect.sleep 1 :: p.2))
      else
        (reconnect s1 rest).map
          (fun p => (p.1, update_led s1 (sizeof_unsigned_int >>> 1) ++ p.2))
    else some (s, [])

/-- Milliseconds of a `timeval` as the program computes them:
`tv_sec*1000 + tv_usec/1000`, with C's truncating division. -/
def ms_of (t : Timeval) : Int := t.tv_sec * 1000 + Int.tdiv t.tv_usec 1000

/-- The test `long_press_command == NULL || long_press_command[0] != '\0'` of line 229. -/
def long_press_armed (long_press_command : Option String) : Bool :=
  match long_press_command with
  | none => true
  | some c => c ≠ ""

/-- The value of `timeout` after lines 229-239. -/
def compute_timeout (cfg : Settings) (s : State) (now : Timeval) : Int :=
  if s.knob_depressed ≠ 0 ∧ long_press_armed cfg.long_press_command = true then
    toInt32 ((cfg.long_press_ms + s.knob_depressed_timestamp.tv_sec * 1000
        + Int.tdiv s.knob_depressed_timestamp.tv_usec 1000)
      - (now.tv_sec * 1000 + Int.tdiv now.tv_usec 1000))
  else
    -1

/-- The body of `if (knob_depressed && ret == 0)`, lines 255-264. -/
def long_press (cfg : Settings) (s : State) : State × List Effect :=
  let s1 := { s with knob_depressed := 0 }
  match cfg.long_press_command with
  | none =>
    let s2 := { s1 with movie_mode := if s1.movie_mode = 0 then 1 else 0 }
    (s2, update_led s2 (sizeof_unsigned_int >>> 1))
  | some c =>
    (s1, exec_command (some c) ++ update_led s1 (sizeof_unsigned_int >>> 1))

/-- The body of `if (ev.type == EV_REL && ev.code == 7)`, lines 277-281. -/
def dispatch_rotation (cfg : Settings) (value : Int) : List Effect :=
  if value = -1 then
    exec_command cfg.counter_clock_wise_command
  else if value = 1 then
    exec_command cfg.clock_wise_command
  else
    []

/-- The classification and dispatch of a read event, lines 276-294. -/
def handle_event (cfg : Settings) (s : State) (ev : InputEvent) : State × List Effect :=
  if ev.type = EV_REL ∧ ev.code = 7 then
    (s, dispatch_rotation cfg ev.value)
  else if ev.type = EV_KEY ∧ ev.code = 256 then
    if ev.value = 1 then
      ({ s with knob_depressed := 1, knob_depressed_timestamp := ev.time }, [])
    else if ev.value = 0 ∧ s.knob_depressed ≠ 0 then
      ({ s with knob_depressed := 0 }, exec_command cfg.knob_command)
    else
      (s, [])
  else
    (s, [])

/-- The body of `if (fds[0].revents > 0)`, lines 268-295. -/
def read_event (cfg : Settings) (s : State) (r : Option InputEvent) : State × List Effect :=
  match r with
  | none => ({ s with devfd := -1 }, [])
  | some ev => handle_event cfg s ev

/-- Lines 228-296: the timeout, the `poll`, the long-press branch and the read branch. -/
def poll_and_dispatch (cfg : Settings) (s : State) (env : Env) : Outcome × List Effect :=
  let timeout := compute_timeout cfg s env.now
  if env.poll_ret < 0 then
    (Outcome.exited 1, [Effect.poll s.fds0_fd timeout, Effect.exit 1])
  else
    let s1 := { s with fds0_revents := env.poll_revents }
    let p2 := if s1.knob_depressed ≠ 0 ∧ env.poll_ret = 0 then long_press cfg s1 else (s1, [])
    let p3 := if p2.1.fds0_revents > 0 then read_event cfg p2.1 env.read else (p2.1, [])
    (Outcome.running p3.1, Effect.poll s.fds0_fd timeout :: (p2.2 ++ p3.2))

/-- One pass of the `while (1)` loop, lines 209-297. -/
def iteration (cfg : Settings) (s : State) (env : Env) : Option (Outcome × List Effect) :=
  match reconnect s env.opens with
  | none => none
  | some (s1, fx) =>
    let r := poll_and_dispatch cfg s1 env
    some (r.1, fx ++ r.2)

/-- Successive passes of the loop, one per element of `envs`; the run stops at `exit`. -/
def run (cfg : Settings) : State → List Env → Option (Outcome × List Effect)
  | s, [] => some (Outcome.running s, [])
  | s, e :: es =>
    match iteration cfg s e with
    | none => none
    | some (Outcome.exited c, fx) => some (Outcome.exited c, fx)
    | some (Outcome.running s1, fx) =>
      (run cfg s1 es).map (fun p => (p.1, fx ++ p.2))

/-! ## Vocabulary of the statements -/

/-- In this pass `poll` reported the descriptor ready and `read` returned the whole
event `ev`. -/
def Readable (env : Env) (ev : InputEvent) : Prop :=
  0 < env.poll_ret ∧ 0 < env.poll_revents ∧ env.read = some ev

/-- The event is a button event: the test of line 283. -/
def is_button (ev : InputEvent) : Prop := ev.type = EV_KEY ∧ ev.code = 256

/-- Recognises the `poll` entries of a trace. -/
def is_poll : Effect → Bool
  | Effect.poll _ _ => true
  | _ => false

/-- The trace without its `poll` entries: the commands run, LED records written, sleeps
and exits. -/
def without_polls (fx : List Effect) : List Effect := fx.filter (fun e => !is_poll e)

/-- What the rotation events among the events read in the passes `envs` dispatch, in
order (lines 276-282 applied to each). -/
def rotations (cfg : Settings) : List Env → List Effect
  | [] => []
  | e :: es =>
    (match e.read with
      | some ev => if ev.type = EV_REL ∧ ev.code = 7 then dispatch_rotation cfg ev.value else []
      | none => []) ++ rotations cfg es

/-- The contract of the wait assumed of `poll`: it reports a timeout (returns 0) only when
the timeout it was given is not negative. The reconnect loop changes `devfd` only, so the
timeout computed in the state at the start of the pass is the one handed to `poll`. -/
def wait_honest (cfg : Settings) (s : State) (env : Env) : Bool :=
  decide (env.poll_ret = 0 → 0 ≤ compute_timeout cfg s env.now)

/-- Every pass of the run `envs` from `s` respects `wait_honest`. -/
def honest_run (cfg : Settings) : State → List Env → Bool
  | _, [] => true
  | s, e :: es =>
    wait_honest cfg s e &&
      (match iteration cfg s e with
        | some (Outcome.running s1, _) => honest_run cfg s1 es
        | _ => true)

/-- The contract of the wait in time, for a pass whose `poll` is followed, in a later
pass, by the reading of an event stamped `later`: `poll` reports a timeout (returns 0)
only when the timeout it was given is not negative, and only once that timeout has
elapsed with nothing to read, so that the event read afterwards is stamped, on the
millisecond clock of the program, no earlier than `now` plus the timeout. -/
def wait_timely (cfg : Settings) (later : Timeval) (s : State) (env : Env) : Bool :=
  decide (env.poll_ret = 0 →
    0 ≤ compute_timeout cfg s env.now ∧
      ms_of env.now + compute_timeout cfg s env.now ≤ ms_of later)

/-- Every pass of the run `envs` from `s` respects `wait_timely` with regard to the event
stamped `later`. -/
def timely_run (cfg : Settings) (later : Timeval) : State → List Env → Bool
  | _, [] => true
  | s, e :: es =>
    wait_timely cfg later s e &&
      (match iteration cfg s e with
        | some (Outcome.running s1, _) => timely_run cfg later s1 es
        | _ => true)

/-! ## Helper lemmas -/

theorem toInt32_of_small (n : Int) (h0 : 0 ≤ n) (h1 : n < 2147483648) : toInt32 n = n := by
  unfold toInt32
  omega

theorem toInt32_emod (n : Int) (h0 : 0 ≤ n) (h1 : n < 4294967296) :
    toInt32 n % 4294967296 = n := by
  unfold toInt32
  omega

theorem reconnect_connected (s : State) (opens : List Int) (h : 0 ≤ s.devfd) :
    reconnect s opens = some (s, []) := by
  have h' : ¬ s.devfd < 0 := not_lt.mpr h
  cases opens <;> simp [reconnect, h']

theorem iteration_connected (cfg : Settings) (s : State) (env : Env) (h : 0 ≤ s.devfd) :
    iteration cfg s env = some (poll_and_dispatch cfg s env) := by
  simp [iteration, reconnect_connected s env.opens h]

theorem reconnect_failures_then_success (fd : Int) (hfd : 0 ≤ fd) (n : Nat) :
    ∀ s : State, s.devfd < 0 →
      reconnect s (List.replicate n (-1) ++ [fd]) =
        some ({ s with devfd := fd },
          List.replicate n (Effect.sleep 1)
            ++ update_led { s with devfd := fd } (sizeof_unsigned_int >>> 1)) := by
  induction n with
  | zero =>
    intro s hs
    have hne : fd ≠ -1 := by omega
    have hnot : ¬ fd < 0 := by omega
    simp [reconnect, hs, hne, hnot]
  | succ k ih =>
    intro s hs
    have h1 : ({ s with devfd := -1 } : State).devfd < 0 := by simp
    have hrec := ih { s with devfd := -1 } h1
    have hstep : reconnect s ((-1) :: (List.replicate k (-1) ++ [fd])) =
        (reconnect { s with devfd := -1 } (List.replicate k (-1) ++ [fd])).map
          (fun p => (p.1, Effect.sleep 1 :: p.2)) := by
      simp [reconnect, hs]
    rw [List.replicate_succ, List.cons_append, hstep, hrec]
    rfl

theorem without_polls_exec_command (c : Option String) :
    without_polls (exec_command c) = exec_command c := by
  unfold exec_command without_polls
  cases c with
  | none => rfl
  | some c =>
    by_cases h : c = ""
    · simp [h]
    · simp [h, is_poll]

theorem without_polls_dispatch_rotation (cfg : Settings) (v : Int) :
    without_polls (dispatch_rotation cfg v) = dispatch_rotation cfg v := by
  unfold dispatch_rotation
  split
  · exact without_polls_exec_command _
  · split
    · exact without_polls_exec_command _
    · rfl

theorem without_polls_append (a b : List Effect) :
    without_polls (a ++ b) = without_polls a ++ without_polls b := by
  simp [without_polls]

theorem without_polls_poll_cons (fd t : Int) (fx : List Effect) :
    without_polls (Effect.poll fd t :: fx) = without_polls fx := by
  simp [without_polls, is_poll]

/-- A pass that reads an event which is not a button event: only `fds[0].revents`
changes, and after the `poll` come the effects of the rotation, if it is one. -/
theorem iteration_reading_other (cfg : Settings) (s : State) (env : Env) (ev : InputEvent)
    (hconn : 0 ≤ s.devfd) (hr : Readable env ev) (hnb : ¬ is_button ev) :
    iteration cfg s env =
      some (Outcome.running { s with fds0_revents := env.poll_revents },
        Effect.poll s.fds0_fd (compute_timeout cfg s env.now)
          :: (if ev.type = EV_REL ∧ ev.code = 7 then dispatch_rotation cfg ev.value else [])) := by
  obtain ⟨hret, hrev, hread⟩ := hr
  have hlt : ¬ env.poll_ret < 0 := by omega
  have hne : env.poll_ret ≠ 0 := by omega
  rw [iteration_connected cfg s env hconn]
  unfold is_button at hnb
  by_cases hrot : ev.type = EV_REL ∧ ev.code = 7
  · simp [poll_and_dispatch, hlt, hne, hrev, hread, read_event, handle_event, hrot]
  · simp [poll_and_dispatch, hlt, hne, hrev, hread, read_event, handle_event, hrot, hnb]

/-- A pass that reads the press edge. -/
theorem iteration_reading_press (cfg : Settings) (s : State) (env : Env) (ev : InputEvent)
    (hconn : 0 ≤ s.devfd) (hr : Readable env ev) (hb : is_button ev) (hv : ev.value = 1) :
    iteration cfg s env =
      some (Outcome.running
          { s with
            fds0_revents := env.poll_revents
            knob_depressed := 1
            knob_depressed_timestamp := ev.time },
        [Effect.poll s.fds0_fd (compute_timeout cfg s env.now)]) := by
  obtain ⟨hret, hrev, hread⟩ := hr
  obtain ⟨ht, hc⟩ := hb
  have hlt : ¬ env.poll_ret < 0 := by omega
  have hne : env.poll_ret ≠ 0 := by omega
  rw [iteration_connected cfg s env hconn]
  simp [poll_and_dispatch, hlt, hne, hrev, hread, read_event, handle_event, ht, hc, hv, EV_KEY,
    EV_REL]

/-- A pass that reads the release edge while the knob is depressed. -/
theorem iteration_reading_release (cfg : Settings) (s : State) (env : Env) (ev : InputEvent)
    (hconn : 0 ≤ s.devfd) (hp : s.knob_depressed ≠ 0) (hr : Readable env ev)
    (hb : is_button ev) (hv : ev.value = 0) :
    iteration cfg s env =
      some (Outcome.running { s with fds0_revents := env.poll_revents, knob_depressed := 0 },
        Effect.poll s.fds0_fd (compute_timeout cfg s env.now)
          :: exec_command cfg.knob_command) := by
  obtain ⟨hret, hrev, hread⟩ := hr
  obtain ⟨ht, hc⟩ := hb
  have hlt : ¬ env.poll_ret < 0 := by omega
  have hne : env.poll_ret ≠ 0 := by omega
  rw [iteration_connected cfg s env hconn]
  simp [poll_and_dispatch, hlt, hne, hrev, hread, read_event, handle_event, ht, hc, hv, hp,
    EV_KEY, EV_REL]

theorem run_cons_running (cfg : Settings) (s : State) (e : Env) (es : List Env) (s1 : State)
    (fx : List Effect) (h : iteration cfg s e = some (Outcome.running s1, fx)) :
    run cfg s (e :: es) = (run cfg s1 es).map (fun p => (p.1, fx ++ p.2)) := by
  simp [run, h]

/-- While the knob is depressed, with `long_press_ms` in the range of `int` and the clock
not behind the stamp of the press: a wait that respects `wait_timely` with regard to an
event stamped less than `long_press_ms` after the press does not time out. -/
theorem no_timeout_before_deadline (cfg : Settings) (later : Timeval) (s : State) (e : Env)
    (hL : cfg.long_press_ms < 2147483648)
    (hclock : ms_of s.knob_depressed_timestamp ≤ ms_of e.now)
    (hel : ms_of later - ms_of s.knob_depressed_timestamp < cfg.long_press_ms)
    (ht : wait_timely cfg later s e = true) : e.poll_ret ≠ 0 := by
  intro h0
  obtain ⟨h1, h2⟩ := of_decide_eq_true ht h0
  unfold compute_timeout at h1 h2
  unfold ms_of at hclock hel h2
  split at h1
  · rw [if_pos (by assumption)] at h2
    unfold toInt32 at h1 h2
    omega
  · omega

/-- From a depressed knob: passes in which the wait either times out or an event other
than a button event is read, then a pass that reads the release edge stamped less than
`long_press_ms` after the press. Under `timely_run` no wait times out. -/
theorem run_until_release (cfg : Settings) (e_rel : Env) (ev_rel : InputEvent)
    (hrel : Readable e_rel ev_rel) (hb : is_button ev_rel) (hv : ev_rel.value = 0)
    (since : Timeval) (hL : cfg.long_press_ms < 2147483648)
    (hel : ms_of ev_rel.time - ms_of since < cfg.long_press_ms)
    (mids : List Env) :
    (∀ e ∈ mids, 0 ≤ e.poll_ret ∧ ms_of since ≤ ms_of e.now ∧
      (0 < e.poll_ret → ∃ ev, Readable e ev ∧ ¬ is_button ev)) →
    ∀ s : State, 0 ≤ s.devfd → s.knob_depressed ≠ 0 → s.knob_depressed_timestamp = since →
      timely_run cfg ev_rel.time s (mids ++ [e_rel]) = true →
      ∃ (s1 : State) (fx : List Effect),
        run cfg s (mids ++ [e_rel]) = some (Outcome.running s1, fx) ∧
        s1.knob_depressed = 0 ∧ s1.movie_mode = s.movie_mode ∧ s1.muted = s.muted ∧
        s1.devfd = s.devfd ∧
        without_polls fx = rotations cfg mids ++ exec_command cfg.knob_command ∧
        (∀ e ∈ mids, 0 < e.poll_ret) := by
  induction mids with
  | nil =>
    intro _ s hconn hp _ _
    refine ⟨{ s with fds0_revents := e_rel.poll_revents, knob_depressed := 0 },
      (Effect.poll s.fds0_fd (compute_timeout cfg s e_rel.now)
        :: exec_command cfg.knob_command) ++ [], ?_, rfl, rfl, rfl, rfl, ?_, by simp⟩
    · rw [List.nil_append,
        run_cons_running cfg s _ [] _ _
          (iteration_reading_release cfg s e_rel ev_rel hconn hp hrel hb hv)]
      rfl
    · simp [without_polls_poll_cons, without_polls_exec_command, rotations]
  | cons e es ih =>
    intro hmids s hconn hp hsince htimely
    obtain ⟨hret0, hclock, hreads⟩ := hmids e (List.mem_cons_self _ _)
    have hrest : ∀ e1 ∈ es, 0 ≤ e1.poll_ret ∧ ms_of since ≤ ms_of e1.now ∧
        (0 < e1.poll_ret → ∃ ev, Readable e1 ev ∧ ¬ is_button ev) :=
      fun e1 he1 => hmids e1 (List.mem_cons_of_mem _ he1)
    simp only [List.cons_append, timely_run, Bool.and_eq_true] at htimely
    obtain ⟨hw, hnext⟩ := htimely
    have hne : e.poll_ret ≠ 0 :=
      no_timeout_before_deadline cfg ev_rel.time s e hL (by rw [hsince]; exact hclock)
        (by rw [hsince]; exact hel) hw
    have hpos : 0 < e.poll_ret := by omega
    obtain ⟨ev, hr, hnb⟩ := hreads hpos
    have hit := iteration_reading_other cfg s e ev hconn hr hnb
    simp only [hit] at hnext
    obtain ⟨s1, fx, hrun, h1, h2, h3, h4, h5, h6⟩ :=
      ih hrest { s with fds0_revents := e.poll_revents } hconn hp hsince hnext
    refine ⟨s1, (Effect.poll s.fds0_fd (compute_timeout cfg s e.now)
        :: (if ev.type = EV_REL ∧ ev.code = 7 then dispatch_rotation cfg ev.value else []))
        ++ fx, ?_, h1, h2, h3, h4, ?_, ?_⟩
    · rw [List.cons_append, run_cons_running cfg s _ _ _ _ hit, hrun]
      rfl
    · rw [List.cons_append, without_polls_poll_cons, without_polls_append, h5]
      have hread : e.read = some ev := hr.2.2
      simp only [rotations, hread]
      split
      · rw [without_polls_dispatch_rotation, List.append_assoc]
      · simp [without_polls]
    · intro e1 he1
      rcases List.mem_cons.mp he1 with hh | hh
      · rw [hh]; exact hpos
      · exact h6 e1 hh

theorem compute_timeout_unarmed (cfg : Settings) (h : cfg.long_press_command = some "")
    (s : State) (now : Timeval) : compute_timeout cfg s now = -1 := by
  simp [compute_timeout, long_press_armed, h]

theorem not_mem_exec_command_write (c : Option String) (fd : Int) (r : InputEvent) :
    Effect.write fd r ∉ exec_command c := by
  unfold exec_command
  cases c with
  | none => simp
  | some c => by_cases h : c = "" <;> simp [h]

theorem not_mem_exec_command_poll (c : Option String) (fd t : Int) :
    Effect.poll fd t ∉ exec_command c := by
  unfold exec_command
  cases c with
  | none => simp
  | some c => by_cases h : c = "" <;> simp [h]

theorem not_mem_update_led_poll (s : State) (v : Nat) (fd t : Int) :
    Effect.poll fd t ∉ update_led s v := by
  unfold update_led set_led
  split <;> simp

theorem not_mem_dispatch_rotation_write (cfg : Settings) (v : Int) (fd : Int) (r : InputEvent) :
    Effect.write fd r ∉ dispatch_rotation cfg v := by
  unfold dispatch_rotation
  split
  · exact not_mem_exec_command_write _ _ _
  · split
    · exact not_mem_exec_command_write _ _ _
    · simp

theorem not_mem_dispatch_rotation_poll (cfg : Settings) (v : Int) (fd t : Int) :
    Effect.poll fd t ∉ dispatch_rotation cfg v := by
  unfold dispatch_rotation
  split
  · exact not_mem_exec_command_poll _ _ _
  · split
    · exact not_mem_exec_command_poll _ _ _
    · simp

/-- The reconnect loop changes `devfd` only, and makes no `poll`. -/
theorem reconnect_preserves (opens : List Int) :
    ∀ (s s1 : State) (fx : List Effect), reconnect s opens = some (s1, fx) →
      s1.muted = s.muted ∧ s1.movie_mode = s.movie_mode ∧
      s1.knob_depressed = s.knob_depressed ∧
      s1.knob_depressed_timestamp = s.knob_depressed_timestamp ∧
      s1.fds0_fd = s.fds0_fd ∧ (∀ fd t, Effect.poll fd t ∉ fx) := by
  induction opens with
  | nil =>
    intro s s1 fx h
    by_cases hd : s.devfd < 0
    · simp [reconnect, hd] at h
    · simp [reconnect, hd] at h
      obtain ⟨rfl, rfl⟩ := h
      simp
  | cons r rest ih =>
    intro s s1 fx h
    by_cases hd : s.devfd < 0
    · by_cases hr : r = -1
      · simp only [reconnect, hd, hr, if_true, Option.map_eq_some'] at h
        obtain ⟨⟨s2, fx2⟩, hrec, heq⟩ := h
        simp only [Prod.mk.injEq] at heq
        obtain ⟨rfl, rfl⟩ := heq
        obtain ⟨h1, h2, h3, h4, h5, h6⟩ := ih _ _ _ hrec
        refine ⟨h1, h2, h3, h4, h5, ?_⟩
        intro fd t hmem
        rcases List.mem_cons.mp hmem with hh | hh
        · cases hh
        · exact h6 fd t hh
      · simp only [reconnect, hd, hr, if_true, if_false, Option.map_eq_some'] at h
        obtain ⟨⟨s2, fx2⟩, hrec, heq⟩ := h
        simp only [Prod.mk.injEq] at heq
        obtain ⟨rfl, rfl⟩ := heq
        obtain ⟨h1, h2, h3, h4, h5, h6⟩ := ih _ _ _ hrec
        refine ⟨h1, h2, h3, h4, h5, ?_⟩
        intro fd t hmem
        rcases List.mem_append.mp hmem with hh | hh
        · exact not_mem_update_led_poll _ _ _ _ hh
        · exact h6 fd t hh
    · simp [reconnect, hd] at h
      obtain ⟨rfl, rfl⟩ := h
      simp

/-- What the read branch can do: it never touches the overlays, writes no LED record, and
resets `knob_depressed` only on a release edge, dispatching `knob_command`. -/
theorem read_event_cases (cfg : Settings) (s : State) (r : Option InputEvent) :
    (read_event cfg s r).1.movie_mode = s.movie_mode ∧
    (read_event cfg s r).1.muted = s.muted ∧
    (∀ fd rec, Effect.write fd rec ∉ (read_event cfg s r).2) ∧
    (∀ fd t, Effect.poll fd t ∉ (read_event cfg s r).2) ∧
    (s.knob_depressed ≠ 0 → (read_event cfg s r).1.knob_depressed = 0 →
      ∃ ev, r = some ev ∧ is_button ev ∧ ev.value = 0 ∧
        (read_event cfg s r).2 = exec_command cfg.knob_command) := by
  cases r with
  | none =>
    refine ⟨rfl, rfl, by simp [read_event], by simp [read_event], ?_⟩
    intro hp h0
    exact absurd h0 hp
  | some ev =>
    simp only [read_event, handle_event]
    by_cases hrot : ev.type = EV_REL ∧ ev.code = 7
    · rw [if_pos hrot]
      refine ⟨rfl, rfl, fun fd rec => not_mem_dispatch_rotation_write _ _ _ _,
        fun fd t => not_mem_dispatch_rotation_poll _ _ _ _, ?_⟩
      intro hp h0
      exact absurd h0 hp
    · rw [if_neg hrot]
      by_cases hkey : ev.type = EV_KEY ∧ ev.code = 256
      · rw [if_pos hkey]
        by_cases h1 : ev.value = 1
        · rw [if_pos h1]
          refine ⟨rfl, rfl, by simp, by simp, ?_⟩
          intro _ h0
          simp at h0
        · rw [if_neg h1]
          by_cases h2 : ev.value = 0 ∧ s.knob_depressed ≠ 0
          · rw [if_pos h2]
            refine ⟨rfl, rfl, fun fd rec => not_mem_exec_command_write _ _ _,
              fun fd t => not_mem_exec_command_poll _ _ _, ?_⟩
            intro _ _
            exact ⟨ev, rfl, hkey, h2.1, rfl⟩
          · rw [if_neg h2]
            refine ⟨rfl, rfl, by simp, by simp, ?_⟩
            intro hp h0
            exact absurd h0 hp
      · rw [if_neg hkey]
        refine ⟨rfl, rfl, by simp, by simp, ?_⟩
        intro hp h0
        exact absurd h0 hp

/-- A pass with the long-press command set to the empty string, under an honest wait. -/
theorem iteration_unarmed (cfg : Settings) (hempty : cfg.long_press_command = some "")
    (s : State) (env : Env) (s1 : State) (fx1 : List Effect)
    (hon : wait_honest cfg s env = true)
    (hit : iteration cfg s env = some (Outcome.running s1, fx1)) :
    ∃ (s0 : State) (pre post : List Effect),
      reconnect s env.opens = some (s0, pre) ∧
      fx1 = pre ++ Effect.poll s.fds0_fd (-1) :: post ∧
      (∀ fd rec, Effect.write fd rec ∉ post) ∧
      (∀ fd t, Effect.poll fd t ∉ post) ∧
      s1.movie_mode = s.movie_mode ∧ s1.muted = s.muted ∧
      (s.knob_depressed ≠ 0 → s1.knob_depressed = 0 →
        ∃ ev, env.read = some ev ∧ is_button ev ∧ ev.value = 0 ∧
          post = exec_command cfg.knob_command) := by
  have hne : env.poll_ret ≠ 0 := by
    intro h0
    have := of_decide_eq_true hon h0
    rw [compute_timeout_unarmed cfg hempty] at this
    omega
  unfold iteration at hit
  cases hrec : reconnect s env.opens with
  | none => simp [hrec] at hit
  | some p =>
    obtain ⟨s0, pre⟩ := p
    obtain ⟨hm, hmm, hk, _, hfd, _⟩ := reconnect_preserves env.opens s s0 pre hrec
    simp only [hrec, Option.some.injEq, Prod.mk.injEq] at hit
    obtain ⟨hout, hfx⟩ := hit
    unfold poll_and_dispatch at hout hfx
    by_cases hlt : env.poll_ret < 0
    · simp [hlt] at hout
    · simp only [hlt, if_false, hne, and_false, Outcome.running.injEq, List.nil_append,
        compute_timeout_unarmed cfg hempty] at hout hfx
      by_cases hrev : env.poll_revents > 0
      · simp only [hrev, if_true] at hout hfx
        obtain ⟨c1, c2, c3, c4, c5⟩ :=
          read_event_cases cfg { s0 with fds0_revents := env.poll_revents } env.read
        refine ⟨s0, pre, _, rfl, ?_, c3, c4, ?_, ?_, ?_⟩
        · rw [← hfx, hfd]
        · rw [← hout, c1]; exact hmm
        · rw [← hout, c2]; exact hm
        · intro hp h0
          rw [← hout] at h0
          exact c5 (by simpa [hk] using hp) h0
      · simp only [hrev, if_false] at hout hfx
        refine ⟨s0, pre, [], rfl, ?_, by simp, by simp, ?_, ?_, ?_⟩
        · rw [← hfx, hfd]
        · rw [← hout]; exact hmm
        · rw [← hout]; exact hm
        · intro hp h0
          rw [← hout] at h0
          exact absurd (by simpa [hk] using h0) hp

theorem iteration_exited_polls (cfg : Settings) (hempty : cfg.long_press_command = some "")
    (s : State) (env : Env) (c : Int) (fx : List Effect)
    (hit : iteration cfg s env = some (Outcome.exited c, fx)) :
    ∀ fd t, Effect.poll fd t ∈ fx → t = -1 := by
  unfold iteration at hit
  cases hrec : reconnect s env.opens with
  | none => simp [hrec] at hit
  | some p =>
    obtain ⟨s0, pre⟩ := p
    obtain ⟨_, _, _, _, _, hnp⟩ := reconnect_preserves env.opens s s0 pre hrec
    simp only [hrec, Option.some.injEq, Prod.mk.injEq] at hit
    obtain ⟨hout, hfx⟩ := hit
    unfold poll_and_dispatch at hout hfx
    by_cases hlt : env.poll_ret < 0
    · simp only [hlt, if_true, compute_timeout_unarmed cfg hempty] at hfx
      intro fd t hmem
      rw [← hfx] at hmem
      rcases List.mem_append.mp hmem with hh | hh
      · exact absurd hh (hnp fd t)
      · simp at hh
        exact hh.2
    · simp [hlt] at hout

theorem run_unarmed (cfg : Settings) (hempty : cfg.long_press_command = some "")
    (envs : List Env) :
    ∀ (s : State) (out : Outcome) (fx : List Effect),
      honest_run cfg s envs = true → run cfg s envs = some (out, fx) →
      (∀ fd t, Effect.poll fd t ∈ fx → t = -1) ∧
      (∀ s1, out = Outcome.running s1 →
        s1.movie_mode = s.movie_mode ∧ s1.muted = s.muted) := by
  induction envs with
  | nil =>
    intro s out fx _ hrun
    simp only [run, Option.some.injEq, Prod.mk.injEq] at hrun
    obtain ⟨rfl, rfl⟩ := hrun
    refine ⟨by simp, ?_⟩
    intro s1 h
    cases h
    exact ⟨rfl, rfl⟩
  | cons e es ih =>
    intro s out fx hon hrun
    simp only [honest_run, Bool.and_eq_true] at hon
    obtain ⟨hw, hrest⟩ := hon
    cases hit : iteration cfg s e with
    | none => simp [run, hit] at hrun
    | some p =>
      obtain ⟨o1, fx1⟩ := p
      cases o1 with
      | exited c =>
        simp only [run, hit, Option.some.injEq, Prod.mk.injEq] at hrun
        obtain ⟨rfl, rfl⟩ := hrun
        refine ⟨iteration_exited_polls cfg hempty s e c _ hit, ?_⟩
        intro s1 h
        cases h
      | running s1 =>
        rw [run_cons_running cfg s e es s1 fx1 hit, Option.map_eq_some'] at hrun
        obtain ⟨⟨o2, fx2⟩, hrun2, heq⟩ := hrun
        simp only [Prod.mk.injEq] at heq
        obtain ⟨rfl, rfl⟩ := heq
        simp only [hit] at hrest
        obtain ⟨hp2, hs2⟩ := ih s1 o2 fx2 hrest hrun2
        obtain ⟨s0, pre, post, hrec, hfx1, _, hnp, hmm, hm, _⟩ :=
          iteration_unarmed cfg hempty s e s1 fx1 hw hit
        obtain ⟨_, _, _, _, _, hnpre⟩ := reconnect_preserves e.opens s s0 pre hrec
        constructor
        · intro fd t hmem
          rcases List.mem_append.mp hmem with hh | hh
          · rw [hfx1] at hh
            rcases List.mem_append.mp hh with h3 | h3
            · exact absurd h3 (hnpre fd t)
            · rcases List.mem_cons.mp h3 with h4 | h4
              · cases h4
                rfl
              · exact absurd h4 (hnp fd t)
          · exact hp2 fd t hh
        · intro s2 h
          obtain ⟨a, b⟩ := hs2 s2 h
          exact ⟨a.trans hmm, b.trans hm⟩

/-- What `exec_command` does, by cases on its argument: one `system` call of a present,
non-empty command, and nothing for `NULL` or the empty string. -/
theorem exec_command_cases (c : Option String) :
    (∀ x : String, c = some x → x ≠ "" → exec_command c = [Effect.system x]) ∧
    ((c = none ∨ c = some "") → exec_command c = []) := by
  constructor
  · intro x hx hne
    simp [exec_command, hx, hne]
  · intro h
    rcases h with h | h <;> simp [exec_command, h]

/-! ## The claims -/

/-- C1: for every `unsigned int` brightness `val` and every state, `update_led val` makes
exactly one `write`, to `devfd`, of a record with type `EV_MSC` and code `MSC_PULSELED`;
its value is 0 when `muted` or `movie_mode` is non-zero, and otherwise it is `val`
unchanged: the 32-bit value field holds exactly the word `val`, which read as the signed
`__s32` of the record is the number `val` for every `val` below `2^31`. -/
theorem update_led_writes_one_record (s : State) (val : Nat) (hval : val < 4294967296) :
    ∃ r : InputEvent, update_led s val = [Effect.write s.devfd r] ∧
      r.type = EV_MSC ∧ r.code = MSC_PULSELED ∧
      ((s.muted ≠ 0 ∨ s.movie_mode ≠ 0) → r.value = 0) ∧
      ((s.muted = 0 ∧ s.movie_mode = 0) →
        r.value % 4294967296 = (val : Int) ∧ (val < 2147483648 → r.value = (val : Int))) := by
  by_cases h : s.muted ≠ 0 ∨ s.movie_mode ≠ 0
  · refine ⟨_, by simp only [update_led, if_pos h, set_led]; rfl, rfl, rfl, ?_, ?_⟩
    · intro _
      simp [toInt32]
    · rintro ⟨h1, h2⟩
      rcases h with h | h
      · exact absurd h1 h
      · exact absurd h2 h
  · refine ⟨_, by simp only [update_led, if_neg h, set_led]; rfl, rfl, rfl, ?_, ?_⟩
    · intro h'
      exact absurd h' h
    · intro _
      refine ⟨toInt32_emod _ (by omega) (by omega), fun hlt => toInt32_of_small _ (by omega) (by omega)⟩

/-- Witness for C1: brightness 200 with both overlays off. -/
theorem update_led_writes_one_record_witness :
    (200 : Nat) < 4294967296 ∧
    ∃ r : InputEvent, update_led (init_state 3) 200 = [Effect.write (init_state 3).devfd r] ∧
      r.type = EV_MSC ∧ r.code = MSC_PULSELED ∧
      (((init_state 3).muted ≠ 0 ∨ (init_state 3).movie_mode ≠ 0) → r.value = 0) ∧
      (((init_state 3).muted = 0 ∧ (init_state 3).movie_mode = 0) →
        r.value % 4294967296 = ((200 : Nat) : Int) ∧
          ((200 : Nat) < 2147483648 → r.value = ((200 : Nat) : Int))) :=
  ⟨by decide, update_led_writes_one_record (init_state 3) 200 (by decide)⟩

/-- C5: a wait that times out (`poll` returns 0, no `revents`) while the knob is depressed.
With `long_press_command` absent, `movie_mode` is negated, no command is run, and the
only effect after the `poll` is the LED update, which writes value 0 when `movie_mode`
went from 0 to 1. With `long_press_command` present and non-empty, that command is run
once, then the LED is updated, and `movie_mode` is unchanged. In both cases
`knob_depressed` becomes 0 and `muted` is unchanged. -/
theorem long_press_effect (cfg : Settings) (s : State) (env : Env)
    (hconn : 0 ≤ s.devfd) (hp : s.knob_depressed ≠ 0)
    (hret : env.poll_ret = 0) (hrev : env.poll_revents = 0) :
    (cfg.long_press_command = none →
      ∃ s1 : State,
        iteration cfg s env = some (Outcome.running s1,
          Effect.poll s.fds0_fd (compute_timeout cfg s env.now)
            :: update_led s1 (sizeof_unsigned_int >>> 1)) ∧
        s1.movie_mode = (if s.movie_mode = 0 then 1 else 0) ∧
        s1.knob_depressed = 0 ∧ s1.muted = s.muted ∧
        (s.movie_mode = 0 →
          update_led s1 (sizeof_unsigned_int >>> 1) =
            [Effect.write s.devfd
              { time := { tv_sec := 0, tv_usec := 0 }, type := EV_MSC,
                code := MSC_PULSELED, value := 0 }])) ∧
    (∀ c : String, cfg.long_press_command = some c → c ≠ "" →
      ∃ s1 : State,
        iteration cfg s env = some (Outcome.running s1,
          Effect.poll s.fds0_fd (compute_timeout cfg s env.now)
            :: Effect.system c :: update_led s1 (sizeof_unsigned_int >>> 1)) ∧
        (∃ r : InputEvent, update_led s1 (sizeof_unsigned_int >>> 1) = [Effect.write s.devfd r]) ∧
        s1.movie_mode = s.movie_mode ∧
        s1.knob_depressed = 0 ∧ s1.muted = s.muted) := by
  have hlt : ¬ env.poll_ret < 0 := by omega
  constructor
  · intro hnone
    refine ⟨{ s with
      fds0_revents := 0
      knob_depressed := 0
      movie_mode := if s.movie_mode = 0 then 1 else 0 }, ?_, rfl, rfl, rfl, ?_⟩
    · rw [iteration_connected cfg s env hconn]
      simp [poll_and_dispatch, hlt, hp, hret, hrev, long_press, hnone]
    · intro hm
      simp [update_led, set_led, hm, toInt32]
  · intro c hsome hne
    refine ⟨{ s with fds0_revents := 0, knob_depressed := 0 }, ?_, ?_, rfl, rfl, rfl⟩
    · rw [iteration_connected cfg s env hconn]
      simp [poll_and_dispatch, hlt, hp, hret, hrev, long_press, hsome, exec_command, hne]
    · unfold update_led
      split <;> exact ⟨_, rfl⟩

/-- Witness for C5: no long-press command, knob held, the wait times out. -/
theorem long_press_effect_witness :
    ∃ s1 : State,
      iteration
          { dev := "/dev/input/powermate", knob_command := some "k",
            long_press_command := none, clock_wise_command := none,
            counter_clock_wise_command := none, long_press_ms := 1000 }
          { init_state 3 with knob_depressed := 1 }
          { opens := [], now := { tv_sec := 1, tv_usec := 0 }, poll_ret := 0,
            poll_revents := 0, read := none }
        = some (Outcome.running s1,
            Effect.poll 3 0 :: update_led s1 (sizeof_unsigned_int >>> 1)) ∧
      s1.movie_mode = 1 ∧ s1.knob_depressed = 0 ∧ s1.muted = 0 :=
  have h := (long_press_effect
      { dev := "/dev/input/powermate", knob_command := some "k",
        long_press_command := none, clock_wise_command := none,
        counter_clock_wise_command := none, long_press_ms := 1000 }
      { init_state 3 with knob_depressed := 1 }
      { opens := [], now := { tv_sec := 1, tv_usec := 0 }, poll_ret := 0,
        poll_revents := 0, read := none }
      (by decide) (by decide) rfl rfl).1 rfl
  match h with
  | ⟨s1, h1, h2, h3, h4, _⟩ => ⟨s1, h1, h2, h3, h4⟩

/-- C6: an event with type `EV_REL` and code 7 that has been read (`poll` reported
readiness, `read` returned a whole record). After the `poll` the trace of the pass is:
for value -1, exactly the one call `system(counter_clock_wise_command)` when that command
is present and non-empty, and nothing when it is `NULL` or empty; for value 1, the same
with `clock_wise_command`; for any other value, nothing. Whatever `knob_depressed` is, the
pass changes nothing in the state but `fds[0].revents`. -/
theorem rotation_dispatch (cfg : Settings) (s : State) (env : Env) (ev : InputEvent)
    (hconn : 0 ≤ s.devfd) (hret : 0 < env.poll_ret) (hrev : 0 < env.poll_revents)
    (hread : env.read = some ev) (htype : ev.type = EV_REL) (hcode : ev.code = 7) :
    ∃ fx : List Effect,
      iteration cfg s env = some (Outcome.running { s with fds0_revents := env.poll_revents },
        Effect.poll s.fds0_fd (compute_timeout cfg s env.now) :: fx) ∧
      (ev.value = -1 →
        (∀ c : String, cfg.counter_clock_wise_command = some c → c ≠ "" →
          fx = [Effect.system c]) ∧
        ((cfg.counter_clock_wise_command = none ∨ cfg.counter_clock_wise_command = some "") →
          fx = [])) ∧
      (ev.value = 1 →
        (∀ c : String, cfg.clock_wise_command = some c → c ≠ "" →
          fx = [Effect.system c]) ∧
        ((cfg.clock_wise_command = none ∨ cfg.clock_wise_command = some "") →
          fx = [])) ∧
      (ev.value ≠ -1 → ev.value ≠ 1 → fx = []) := by
  have hlt : ¬ env.poll_ret < 0 := by omega
  have hne : env.poll_ret ≠ 0 := by omega
  rw [iteration_connected cfg s env hconn]
  by_cases h1 : ev.value = -1
  · refine ⟨exec_command cfg.counter_clock_wise_command, ?_,
      fun _ => exec_command_cases cfg.counter_clock_wise_command, ?_, ?_⟩
    · simp [poll_and_dispatch, hlt, hne, hrev, hread, read_event, handle_event,
        dispatch_rotation, htype, hcode, h1]
    · intro h; omega
    · intro h; exact absurd h1 h
  · by_cases h2 : ev.value = 1
    · refine ⟨exec_command cfg.clock_wise_command, ?_, ?_,
        fun _ => exec_command_cases cfg.clock_wise_command, ?_⟩
      · simp [poll_and_dispatch, hlt, hne, hrev, hread, read_event, handle_event,
          dispatch_rotation, htype, hcode, h1, h2]
      · intro h; exact absurd h h1
      · intro _ h; exact absurd h2 h
    · refine ⟨[], ?_, ?_, ?_, fun _ _ => rfl⟩
      · simp [poll_and_dispatch, hlt, hne, hrev, hread, read_event, handle_event,
          dispatch_rotation, htype, hcode, h1, h2]
      · intro h; exact absurd h h1
      · intro h; exact absurd h h2

/-- Witness for C6: a counter-clockwise tick read while the knob is depressed, with
`counter_clock_wise_command = "down"`: the pass makes the `poll` and then the one call
`system("down")`. -/
theorem rotation_dispatch_witness :
    iteration
        { dev := "/dev/input/powermate", knob_command := none,
          long_press_command := none, clock_wise_command := some "up",
          counter_clock_wise_command := some "down", long_press_ms := 1000 }
        { init_state 3 with knob_depressed := 1 }
        { opens := [], now := { tv_sec := 0, tv_usec := 0 }, poll_ret := 1,
          poll_revents := 1,
          read := some { time := { tv_sec := 0, tv_usec := 0 }, type := EV_REL, code := 7,
                         value := -1 } }
      = some (Outcome.running { init_state 3 with knob_depressed := 1, fds0_revents := 1 },
          [Effect.poll 3 1000, Effect.system "down"]) :=
  have h := rotation_dispatch
      { dev := "/dev/input/powermate", knob_command := none,
        long_press_command := none, clock_wise_command := some "up",
        counter_clock_wise_command := some "down", long_press_ms := 1000 }
      { init_state 3 with knob_depressed := 1 }
      { opens := [], now := { tv_sec := 0, tv_usec := 0 }, poll_ret := 1,
        poll_revents := 1,
        read := some { time := { tv_sec := 0, tv_usec := 0 }, type := EV_REL, code := 7,
                       value := -1 } }
      { time := { tv_sec := 0, tv_usec := 0 }, type := EV_REL, code := 7, value := -1 }
      (by decide) (by decide) (by decide) rfl rfl rfl
  match h with
  | ⟨_, h1, h2, _, _⟩ => ((h2 rfl).1 "down" rfl (by decide)) ▸ h1

/-- C7: the reconnect loop entered with `devfd < 0`, `n` failed `open`s (result -1) and
then a successful one (result `fd ≥ 0`). The loop ends; its effects are exactly `n`
one-second sleeps followed by the single LED write of `update_led`, made on the new
descriptor; no command is run; apart from `devfd` the state is unchanged; and in the pass
of the main loop all of this comes before the `poll`. -/
theorem reconnect_n_failures (cfg : Settings) (s : State) (env : Env) (n : Nat) (fd : Int)
    (hdis : s.devfd < 0) (hfd : 0 ≤ fd)
    (hopens : env.opens = List.replicate n (-1) ++ [fd]) :
    reconnect s env.opens =
      some ({ s with devfd := fd },
        List.replicate n (Effect.sleep 1)
          ++ update_led { s with devfd := fd } (sizeof_unsigned_int >>> 1)) ∧
    (∃ r : InputEvent,
      update_led { s with devfd := fd } (sizeof_unsigned_int >>> 1) = [Effect.write fd r]) ∧
    (∃ (out : Outcome) (rest : List Effect),
      iteration cfg s env =
        some (out,
          List.replicate n (Effect.sleep 1)
            ++ update_led { s with devfd := fd } (sizeof_unsigned_int >>> 1)
            ++ Effect.poll s.fds0_fd (compute_timeout cfg s env.now) :: rest)) := by
  have hrec := reconnect_failures_then_success fd hfd n s hdis
  refine ⟨by rw [hopens]; exact hrec, ?_, ?_⟩
  · unfold update_led
    split <;> exact ⟨_, rfl⟩
  · rw [← hopens] at hrec
    simp only [iteration, hrec, poll_and_dispatch]
    split
    · exact ⟨_, _, rfl⟩
    · exact ⟨_, _, rfl⟩

/-- Witness for C7: the scenario of the specification, three failures then success. -/
theorem reconnect_n_failures_witness :
    reconnect (init_state (-1)) [-1, -1, -1, 5] =
      some ({ init_state (-1) with devfd := 5 },
        [Effect.sleep 1, Effect.sleep 1, Effect.sleep 1]
          ++ update_led { init_state (-1) with devfd := 5 } (sizeof_unsigned_int >>> 1)) :=
  (reconnect_n_failures
    { dev := "/dev/input/powermate", knob_command := none, long_press_command := none,
      clock_wise_command := none, counter_clock_wise_command := none, long_press_ms := 1000 }
    (init_state (-1))
    { opens := [-1, -1, -1, 5], now := { tv_sec := 0, tv_usec := 0 }, poll_ret := 1,
      poll_revents := 1, read := none }
    3 5 (by decide) (by decide) rfl).1

/-- C8, evaluated where it fails: with the default 1000 ms, a press stamped 0.000 s and
`gettimeofday` reporting 2.000 s, the timeout handed to `poll` is -1000 (which `poll`
takes as "no timeout"), whereas `max(0, long_press_ms - elapsed_ms)` is 0. -/
theorem timeout_not_clamped :
    compute_timeout default_settings
        { init_state 3 with
          knob_depressed := 1
          knob_depressed_timestamp := { tv_sec := 0, tv_usec := 0 } }
        { tv_sec := 2, tv_usec := 0 } = -1000 ∧
    max 0 (default_settings.long_press_ms
        - (ms_of { tv_sec := 2, tv_usec := 0 } - ms_of { tv_sec := 0, tv_usec := 0 })) = 0 := by
  decide

/-- C9, evaluated where it fails. First: the initial `open` failed, so `main` stored
`fds[0].fd = -1`; the reconnect loop then obtains descriptor 3 and stores it in `devfd`
only, so the following `poll` is given -1. Second: connected on descriptor 3, a `read`
fails (`devfd = -1`), the next pass reopens the device as descriptor 4 and writes the LED
record there, but `poll` still waits on descriptor 3. -/
theorem poll_fd_stale_after_reconnect :
    reconnect (init_state (-1)) [3] =
      some ({ init_state (-1) with devfd := 3 }, [Effect.write 3 (led_record 2)]) ∧
    ({ init_state (-1) with devfd := 3 } : State).fds0_fd = -1 ∧
    run default_settings (init_state 3)
        [ { opens := [], now := { tv_sec := 0, tv_usec := 0 }, poll_ret := 1,
            poll_revents := 24, read := none },
          { opens := [4], now := { tv_sec := 5, tv_usec := 0 }, poll_ret := 1,
            poll_revents := 24,
            read := some (button_event 1 { tv_sec := 5, tv_usec := 0 }) } ] =
      some (Outcome.running
          { muted := 0, movie_mode := 0, knob_depressed := 1, devfd := 4,
            knob_depressed_timestamp := { tv_sec := 5, tv_usec := 0 },
            fds0_fd := 3, fds0_revents := 24 },
        [Effect.poll 3 (-1), Effect.write 4 (led_record 2), Effect.poll 3 (-1)]) := by
  decide

/-- C10, evaluated where it fails: the argument of `update_led` at both call sites is
`sizeof(unsigned int) >> 1`, which is 2; with both overlays off the record written after
a reconnection, and after a long press that runs a command, carries the value 2, not 127
or 128. -/
theorem led_default_brightness_is_two :
    sizeof_unsigned_int >>> 1 = 2 ∧
    reconnect (init_state (-1)) [3] =
      some ({ init_state (-1) with devfd := 3 }, [Effect.write 3 (led_record 2)]) ∧
    (long_press { default_settings with long_press_command := some "cmd" }
        { init_state 3 with knob_depressed := 1 }).2 =
      [Effect.system "cmd", Effect.write 3 (led_record 2)] := by
  decide

/-- C2, evaluated where it fails: default settings (1000 ms, no long-press command) with
`knob_command = "click"`. The press edge stamped 10.000 s is read; at the next pass
`gettimeofday` reports 11.500 s, so the duration has already elapsed and the timeout
computed is -500, which `poll` takes as "no timeout"; the wait therefore ends only at the
release edge, and the pass runs `knob_command`. The run contains a Click and no LongPress:
`movie_mode` is still 0 and no LED record was written. For comparison, the second run is
the same press with the timeout computed in time (1000 ms) and the wait timing out: there
`movie_mode` becomes 1, the LED record with value 0 is written, and the release read
afterwards runs nothing. -/
theorem late_timeout_turns_long_press_into_click :
    run { default_settings with knob_command := some "click" } (init_state 3)
        [ env_reading { tv_sec := 10, tv_usec := 0 }
            (button_event 1 { tv_sec := 10, tv_usec := 0 }),
          env_reading { tv_sec := 11, tv_usec := 500000 }
            (button_event 0 { tv_sec := 11, tv_usec := 600000 }) ] =
      some (Outcome.running
          { muted := 0, movie_mode := 0, knob_depressed := 0, devfd := 3,
            knob_depressed_timestamp := { tv_sec := 10, tv_usec := 0 },
            fds0_fd := 3, fds0_revents := 1 },
        [Effect.poll 3 (-1), Effect.poll 3 (-500), Effect.system "click"]) ∧
    run { default_settings with knob_command := some "click" } (init_state 3)
        [ env_reading { tv_sec := 10, tv_usec := 0 }
            (button_event 1 { tv_sec := 10, tv_usec := 0 }),
          { opens := [], now := { tv_sec := 10, tv_usec := 0 }, poll_ret := 0,
            poll_revents := 0, read := none },
          env_reading { tv_sec := 11, tv_usec := 0 }
            (button_event 0 { tv_sec := 11, tv_usec := 500000 }) ] =
      some (Outcome.running
          { muted := 0, movie_mode := 1, knob_depressed := 0, devfd := 3,
            knob_depressed_timestamp := { tv_sec := 10, tv_usec := 0 },
            fds0_fd := 3, fds0_revents := 1 },
        [Effect.poll 3 (-1), Effect.poll 3 1000, Effect.write 3 (led_record 0),
          Effect.poll 3 (-1)]) := by
  decide

/-- C3, as stated, fails: with `long_press_ms = 4294967301` a press stamped 10.000 s and
its release stamped 10.050 s are 50 ms apart, far less than `long_press_ms`, and the run
respects both contracts of the wait; yet the timeout computed after the press is
`4294967301` narrowed to `int`, which is 5, the wait times out, `movie_mode` becomes 1,
the LED record with value 0 is written, and the release read afterwards runs nothing:
one LongPress and no Click. -/
theorem short_press_with_huge_duration_is_long_press :
    ms_of { tv_sec := 10, tv_usec := 50000 } - ms_of { tv_sec := 10, tv_usec := 0 } = 50 ∧
    timely_run
        { default_settings with knob_command := some "click", long_press_ms := 4294967301 }
        { tv_sec := 10, tv_usec := 50000 } (init_state 3)
        [ env_reading { tv_sec := 10, tv_usec := 0 }
            (button_event 1 { tv_sec := 10, tv_usec := 0 }),
          { opens := [], now := { tv_sec := 10, tv_usec := 0 }, poll_ret := 0,
            poll_revents := 0, read := none },
          env_reading { tv_sec := 10, tv_usec := 50000 }
            (button_event 0 { tv_sec := 10, tv_usec := 50000 }) ] = true ∧
    run { default_settings with knob_command := some "click", long_press_ms := 4294967301 }
        (init_state 3)
        [ env_reading { tv_sec := 10, tv_usec := 0 }
            (button_event 1 { tv_sec := 10, tv_usec := 0 }),
          { opens := [], now := { tv_sec := 10, tv_usec := 0 }, poll_ret := 0,
            poll_revents := 0, read := none },
          env_reading { tv_sec := 10, tv_usec := 50000 }
            (button_event 0 { tv_sec := 10, tv_usec := 50000 }) ] =
      some (Outcome.running
          { muted := 0, movie_mode := 1, knob_depressed := 0, devfd := 3,
            knob_depressed_timestamp := { tv_sec := 10, tv_usec := 0 },
            fds0_fd := 3, fds0_revents := 1 },
        [Effect.poll 3 (-1), Effect.poll 3 5, Effect.write 3 (led_record 0),
          Effect.poll 3 (-1)]) := by
  decide

/-- C3, amended: a run on an open device that reads a press edge (`EV_KEY`, code 256,
value 1) and later the release edge (value 0) stamped less than `long_press_ms`
milliseconds after it on the millisecond clock of the program, with `long_press_ms` in the
range of `int`. In every pass in between the wait either times out or an event that is not
a button event is read (rotations included), the clock is not behind the stamp of the
press, and every wait of the run respects `wait_timely` with regard to the release. Then
no wait in between times out; the run completes; apart from the `poll`s its trace is
exactly what the rotations read in between dispatch, followed by the dispatch of
`knob_command` made in the pass of the release, which is the one call
`system(knob_command)` when the command is present and non-empty and nothing otherwise:
no LED record is written and nothing else is run. `movie_mode` and `muted` are unchanged
and `knob_depressed` is 0 at the end. This holds whatever the press state at the start,
Idle in particular. -/
theorem click_on_short_press (cfg : Settings) (s : State)
    (e_press : Env) (ev_press : InputEvent) (mids : List Env)
    (e_rel : Env) (ev_rel : InputEvent)
    (hconn : 0 ≤ s.devfd)
    (hpress : Readable e_press ev_press) (hpb : is_button ev_press) (hpv : ev_press.value = 1)
    (hrel : Readable e_rel ev_rel) (hrb : is_button ev_rel) (hrv : ev_rel.value = 0)
    (hL : cfg.long_press_ms < 2147483648)
    (helapsed : ms_of ev_rel.time - ms_of ev_press.time < cfg.long_press_ms)
    (hmids : ∀ e ∈ mids, 0 ≤ e.poll_ret ∧ ms_of ev_press.time ≤ ms_of e.now ∧
      (0 < e.poll_ret → ∃ ev, Readable e ev ∧ ¬ is_button ev))
    (htimely : timely_run cfg ev_rel.time s (e_press :: (mids ++ [e_rel])) = true) :
    ∃ (s1 : State) (fx click : List Effect),
      run cfg s (e_press :: (mids ++ [e_rel])) = some (Outcome.running s1, fx) ∧
      (∀ e ∈ mids, 0 < e.poll_ret) ∧
      s1.knob_depressed = 0 ∧ s1.movie_mode = s.movie_mode ∧ s1.muted = s.muted ∧
      without_polls fx = rotations cfg mids ++ click ∧
      (∀ c : String, cfg.knob_command = some c → c ≠ "" → click = [Effect.system c]) ∧
      ((cfg.knob_command = none ∨ cfg.knob_command = some "") → click = []) := by
  have hit := iteration_reading_press cfg s e_press ev_press hconn hpress hpb hpv
  simp only [timely_run, Bool.and_eq_true, hit] at htimely
  obtain ⟨s1, fx, hrun, h1, h2, h3, _, h5, h6⟩ :=
    run_until_release cfg e_rel ev_rel hrel hrb hrv ev_press.time hL helapsed mids hmids
      { s with
        fds0_revents := e_press.poll_revents
        knob_depressed := 1
        knob_depressed_timestamp := ev_press.time }
      hconn (by simp) rfl htimely.2
  refine ⟨s1, [Effect.poll s.fds0_fd (compute_timeout cfg s e_press.now)] ++ fx,
    exec_command cfg.knob_command, ?_, h6, h1, h2, h3, ?_,
    (exec_command_cases cfg.knob_command).1, (exec_command_cases cfg.knob_command).2⟩
  · rw [run_cons_running cfg s _ _ _ _ hit, hrun]
    rfl
  · rw [List.singleton_append, without_polls_poll_cons, h5]

/-- Witness for C3 as amended: press at 10.000 s, one clockwise tick, release at 10.400 s,
with the default 1000 ms and commands configured. -/
theorem click_on_short_press_witness :
    ∃ (s1 : State) (fx : List Effect),
      run { default_settings with knob_command := some "click", clock_wise_command := some "up" }
          (init_state 3)
          [ env_reading { tv_sec := 10, tv_usec := 0 }
              (button_event 1 { tv_sec := 10, tv_usec := 0 }),
            env_reading { tv_sec := 10, tv_usec := 200000 }
              { time := { tv_sec := 10, tv_usec := 200000 }, type := EV_REL, code := 7,
                value := 1 },
            env_reading { tv_sec := 10, tv_usec := 400000 }
              (button_event 0 { tv_sec := 10, tv_usec := 400000 }) ]
        = some (Outcome.running s1, fx) ∧
      s1.knob_depressed = 0 ∧ s1.movie_mode = 0 ∧ s1.muted = 0 ∧
      without_polls fx = [Effect.system "up", Effect.system "click"] :=
  have h := click_on_short_press
    { default_settings with knob_command := some "click", clock_wise_command := some "up" }
    (init_state 3)
    (env_reading { tv_sec := 10, tv_usec := 0 } (button_event 1 { tv_sec := 10, tv_usec := 0 }))
    (button_event 1 { tv_sec := 10, tv_usec := 0 })
    [ env_reading { tv_sec := 10, tv_usec := 200000 }
        { time := { tv_sec := 10, tv_usec := 200000 }, type := EV_REL, code := 7, value := 1 } ]
    (env_reading { tv_sec := 10, tv_usec := 400000 }
      (button_event 0 { tv_sec := 10, tv_usec := 400000 }))
    (button_event 0 { tv_sec := 10, tv_usec := 400000 })
    (by decide)
    ⟨by decide, by decide, rfl⟩ ⟨rfl, rfl⟩ rfl
    ⟨by decide, by decide, rfl⟩ ⟨rfl, rfl⟩ rfl
    (by decide) (by decide)
    (by
      intro e he
      rw [List.mem_singleton] at he
      subst he
      exact ⟨by decide, by decide,
        fun _ => ⟨_, ⟨by decide, by decide, rfl⟩, by unfold is_button; decide⟩⟩)
    (by decide)
  match h with
  | ⟨s1, fx, _, h1, _, h3, h4, h5, h6, h7, _⟩ =>
    ⟨s1, fx, h1, h3, h4, h5, (h7 "click" rfl (by decide)) ▸ h6⟩

/-- C4: with `long_press_command` present and empty. (1) The timeout computed is -1 in
every state and at every time. (2) In every run in which `poll` reports a timeout only
when it was given a non-negative timeout, every `poll` of the trace has timeout -1, and
`movie_mode` and `muted` are at the end what they were at the start. (3) In every pass of
such a run the trace is that of the reconnect loop, the `poll`, and then effects among
which there is no LED record; and a depressed knob is reset in a pass only when that pass
read the release edge (button event, value 0), the effects after the `poll` being then
exactly the dispatch of `knob_command`. -/
theorem empty_long_press_command_disarms (cfg : Settings)
    (hempty : cfg.long_press_command = some "") :
    (∀ (s : State) (now : Timeval), compute_timeout cfg s now = -1) ∧
    (∀ (s : State) (envs : List Env) (out : Outcome) (fx : List Effect),
      honest_run cfg s envs = true → run cfg s envs = some (out, fx) →
      (∀ fd t, Effect.poll fd t ∈ fx → t = -1) ∧
      (∀ s1, out = Outcome.running s1 →
        s1.movie_mode = s.movie_mode ∧ s1.muted = s.muted)) ∧
    (∀ (s : State) (env : Env) (s1 : State) (fx1 : List Effect),
      wait_honest cfg s env = true →
      iteration cfg s env = some (Outcome.running s1, fx1) →
      ∃ (s0 : State) (pre post : List Effect),
        reconnect s env.opens = some (s0, pre) ∧
        fx1 = pre ++ Effect.poll s.fds0_fd (-1) :: post ∧
        (∀ fd rec, Effect.write fd rec ∉ post) ∧
        (s.knob_depressed ≠ 0 → s1.knob_depressed = 0 →
          ∃ ev, env.read = some ev ∧ is_button ev ∧ ev.value = 0 ∧
            post = exec_command cfg.knob_command)) := by
  refine ⟨compute_timeout_unarmed cfg hempty,
    fun s envs out fx hon hrun => run_unarmed cfg hempty envs s out fx hon hrun, ?_⟩
  intro s env s1 fx1 hon hit
  obtain ⟨s0, pre, post, h1, h2, h3, _, _, _, h7⟩ :=
    iteration_unarmed cfg hempty s env s1 fx1 hon hit
  exact ⟨s0, pre, post, h1, h2, h3, h7⟩

/-- Witness for C4: the knob is pressed at 10 s and released a minute later, with
`long_press_command = ""`; the timeout asked of `poll` while it is held is -1, and the run
ends with `movie_mode` and `muted` unchanged. -/
theorem empty_long_press_command_disarms_witness :
    compute_timeout { default_settings with long_press_command := some "" }
        { init_state 3 with
          knob_depressed := 1
          knob_depressed_timestamp := { tv_sec := 10, tv_usec := 0 } }
        { tv_sec := 70, tv_usec := 0 } = -1 ∧
    ({ muted := 0, movie_mode := 0, knob_depressed := 0, devfd := 3,
       knob_depressed_timestamp := { tv_sec := 10, tv_usec := 0 },
       fds0_fd := 3, fds0_revents := 1 } : State).movie_mode = (init_state 3).movie_mode ∧
    ({ muted := 0, movie_mode := 0, knob_depressed := 0, devfd := 3,
       knob_depressed_timestamp := { tv_sec := 10, tv_usec := 0 },
       fds0_fd := 3, fds0_revents := 1 } : State).muted = (init_state 3).muted :=
  ⟨(empty_long_press_command_disarms
      { default_settings with long_press_command := some "" } rfl).1 _ _,
   ((empty_long_press_command_disarms
      { default_settings with long_press_command := some "", knob_command := some "click" }
      rfl).2.1 (init_state 3)
      [ env_reading { tv_sec := 10, tv_usec := 0 }
          (button_event 1 { tv_sec := 10, tv_usec := 0 }),
        env_reading { tv_sec := 70, tv_usec := 0 }
          (button_event 0 { tv_sec := 70, tv_usec := 0 }) ]
      (Outcome.running
        { muted := 0, movie_mode := 0, knob_depressed := 0, devfd := 3,
          knob_depressed_timestamp := { tv_sec := 10, tv_usec := 0 },
          fds0_fd := 3, fds0_revents := 1 })
      [Effect.poll 3 (-1), Effect.poll 3 (-1), Effect.system "click"]
      (by decide) (by decide)).2 _ rfl⟩

end Powermate
